import Mathlib

/-!
Verification of the Telegram-Face-Detection pipeline (edge detector,
relay bot server, GUI supervisor) against its natural-language
specification.  The Python sources are shallowly embedded: bytes become
`List Nat`, wall-clock instants become `Int`, socket traffic becomes
explicit lists of frames/events, and each handler becomes a pure state
transition returning an effect trace.
-/

namespace FaceDetect

/-- A binary payload: a list of byte values, as produced by
`cv2.imencode(...).tobytes()` in `detector.py`. -/
abbrev Bytes := List Nat

/-! ## Image Link: sender side (`detector.py`, `send_image`)

`send_image` slices the encoded image into chunks of `chunk_size = 1024`
bytes (`for i in range(0, len(img_bytes), chunk_size): chunk =
img_bytes[i:i + chunk_size]`), sends each in order, then sends the empty
packet `b''` as the end-of-image sentinel. -/

/-- The data frames produced by the sender's chunking loop: successive
slices `img_bytes[i:i+c]` for `i = 0, c, 2c, ...`.  `c = 0` would make
Python's `range` raise, so we return no frames in that (unused) case. -/
def chunkFrames (c : Nat) (p : Bytes) : List Bytes :=
  if h : p = [] ∨ c = 0 then []
  else p.take c :: chunkFrames c (p.drop c)
termination_by p.length
decreasing_by
  simp only [not_or] at h
  have hp : p ≠ [] := h.1
  have hc : c ≠ 0 := h.2
  have : 0 < p.length := List.length_pos.mpr hp
  simp [List.length_drop]
  omega

/-- Everything `send_image` puts on the wire for one image, in order:
the data frames followed by the zero-length sentinel frame. -/
def sendFrames (c : Nat) (p : Bytes) : List Bytes :=
  chunkFrames c p ++ [[]]

/-! ## Image Link: receiver side (`telegram_bot_server.py`, `receive_image`)

`receive_image` starts from a fresh local buffer `image_data = b""`,
appends each received packet, and breaks on the first empty packet (or
when the attempt is cancelled / the frame stream ends).  We model the
delivered frame stream as a list; running out of frames corresponds to a
cancellation, which also breaks out and returns the buffer so far. -/

/-- The receiver's accumulation loop, with the current buffer explicit:
`image_data += packet` until `not packet`. -/
def receiveImageFrom (buf : Bytes) : List Bytes → Bytes
  | [] => buf
  | f :: fs => if f.isEmpty then buf else receiveImageFrom (buf ++ f) fs

/-- `receive_image`: each call begins with the empty buffer `b""`. -/
def receive_image (frames : List Bytes) : Bytes :=
  receiveImageFrom [] frames

/-- The receiver's accumulation loop prepends its initial buffer to
whatever a fresh-buffer run would collect. -/
theorem receiveImageFrom_eq (buf : Bytes) (fs : List Bytes) :
    receiveImageFrom buf fs = buf ++ receiveImageFrom [] fs := by
  induction fs generalizing buf with
  | nil => simp [receiveImageFrom]
  | cons f fs ih =>
    by_cases hf : f.isEmpty
    · simp [receiveImageFrom, hf]
    · simp only [receiveImageFrom, hf, if_neg hf, Bool.false_eq_true,
        if_false]
      rw [ih (buf ++ f), ih ([] ++ f)]
      simp [List.append_assoc]

/-- Reassembling a stream headed by a nonempty frame. -/
theorem receive_image_cons (f : Bytes) (fs : List Bytes)
    (hf : ¬ f.isEmpty) :
    receive_image (f :: fs) = f ++ receive_image fs := by
  simp only [receive_image, receiveImageFrom, hf, if_neg hf]
  rw [receiveImageFrom_eq]
  simp

/-- The lengths the sender's slicing produces on an `n`-byte payload:
`min c` of what remains, repeatedly. -/
def chunkSizes (c n : Nat) : List Nat :=
  if n = 0 ∨ c = 0 then [] else min c n :: chunkSizes c (n - c)
termination_by n
decreasing_by omega

/-- Reassembling the sender's data frames (followed by any further
traffic) recovers the payload and continues with the rest. -/
theorem receive_image_chunkFrames (c : Nat) (hc : 0 < c) (p : Bytes)
    (fs : List Bytes) :
    receive_image (chunkFrames c p ++ fs) = p ++ receive_image fs := by
  induction p using chunkFrames.induct c with
  | case1 p h =>
    rcases h with h | h
    · subst h; rw [chunkFrames]; simp
    · omega
  | case2 p h ih =>
    simp only [not_or] at h
    rw [chunkFrames, dif_neg (by simp [h.1, h.2])]
    have hne : ¬ (p.take c).isEmpty := by
      simp [List.isEmpty_iff, List.take_eq_nil_iff, h.1, h.2]
    rw [List.cons_append, receive_image_cons _ _ hne, ih,
      ← List.append_assoc, List.take_append_drop]

/-- The data-frame lengths are `chunkSizes`. -/
theorem chunkFrames_map_length (c : Nat) (p : Bytes) :
    (chunkFrames c p).map List.length = chunkSizes c p.length := by
  induction p using chunkFrames.induct c with
  | case1 p h =>
    have h' : p.length = 0 ∨ c = 0 := by
      rcases h with h | h
      · exact Or.inl (by simp [h])
      · exact Or.inr h
    rw [chunkFrames, dif_pos h, chunkSizes, if_pos h']
    simp
  | case2 p h ih =>
    simp only [not_or] at h
    rw [chunkFrames, dif_neg (by simp [h.1, h.2]), chunkSizes,
      if_neg (by simp [h.1, h.2, List.length_eq_zero])]
    simp [ih, List.length_take, List.length_drop, Nat.min_comm]

/-- C1: sending a payload as `send_image` does (in-order slices of at
most `c` bytes followed by one zero-length sentinel frame) and
reassembling as `receive_image` does (concatenate until a zero-length
frame) recovers the payload byte-for-byte; a 3000-byte payload at chunk
size 1024 yields frames of sizes 1024, 1024, 952 and the 0-length
sentinel, and reassembles to the original 3000 bytes. -/
theorem C1_chunking_round_trip :
    (∀ (c : Nat) (p : Bytes), 0 < c →
        receive_image (sendFrames c p) = p) ∧
    (sendFrames 1024 (List.replicate 3000 0)).map List.length =
      [1024, 1024, 952, 0] ∧
    receive_image (sendFrames 1024 (List.replicate 3000 0)) =
      List.replicate 3000 0 := by
  have round : ∀ (c : Nat) (p : Bytes), 0 < c →
      receive_image (sendFrames c p) = p := by
    intro c p hc
    rw [sendFrames, receive_image_chunkFrames c hc]
    simp [receive_image, receiveImageFrom]
  refine ⟨round, ?_, round 1024 _ (by decide)⟩
  rw [sendFrames, List.map_append, chunkFrames_map_length,
    List.length_replicate]
  have e0 : chunkSizes 1024 0 = [] := by rw [chunkSizes]; norm_num
  have e1 : chunkSizes 1024 952 = [952] := by rw [chunkSizes]; norm_num [e0]
  have e2 : chunkSizes 1024 1976 = [1024, 952] := by
    rw [chunkSizes]; norm_num [e1]
  have e3 : chunkSizes 1024 3000 = [1024, 1024, 952] := by
    rw [chunkSizes]; norm_num [e2]
  rw [e3]
  rfl

/-- Closed instance discharging the hypothesis of
`C1_chunking_round_trip`'s universal part. -/
theorem C1_chunking_round_trip_witness :
    receive_image (sendFrames 2 [5, 6, 7]) = [5, 6, 7] :=
  C1_chunking_round_trip.1 2 [5, 6, 7] (by decide)

/-! ## Rate gate (`detector.py`, `send_image`)

`send_image(frame, sock, addr, image_send_interval=5)` reads the wall
clock, returns early (Python `return`, value `None`) when
`current_time - last_sent_time < image_send_interval`, and otherwise
sends all chunk frames plus the sentinel and sets the global
`last_sent_time = current_time`.  Instants are modelled as `Int`. -/

/-- Observable outcome of one `send_image` call: the Python return value
(`None` on both paths, hence `Unit`), the datagrams handed to `sendto`
in order, and the global `last_sent_time` after the call. -/
structure SendOutcome where
  retval : Unit
  frames : List Bytes
  last_sent_time : Int
deriving Repr, DecidableEq

/-- One `send_image` call on the already-encoded image bytes, at clock
instant `now`, with global state `last_sent` and interval `interval`. -/
def send_image (img_bytes : Bytes) (now last_sent interval : Int) :
    SendOutcome :=
  if now - last_sent < interval then
    ⟨(), [], last_sent⟩
  else
    ⟨(), sendFrames 1024 img_bytes, now⟩

/-- A sequence of `send_image` attempts at the given clock instants,
threading the `last_sent_time` global through; returns the number of
attempts that actually transmitted and the final `last_sent_time`. -/
def runAttempts (interval : Int) (img : Bytes) (last0 : Int) :
    List Int → Nat × Int
  | [] => (0, last0)
  | t :: ts =>
      let o := send_image img t last0 interval
      let rest := runAttempts interval img o.last_sent_time ts
      ((if o.frames.isEmpty then 0 else 1) + rest.1, rest.2)

/-- An attempt not yet due transmits nothing and leaves the gate alone;
so does any run of attempts that are all not yet due. -/
theorem runAttempts_idle (interval : Int) (img : Bytes) :
    ∀ (ts : List Int) (last : Int), (∀ t ∈ ts, t - last < interval) →
      runAttempts interval img last ts = (0, last) := by
  intro ts
  induction ts with
  | nil => intro last _; rfl
  | cons t ts ih =>
    intro last h
    have ht : t - last < interval := h t (by simp)
    simp only [runAttempts, send_image, if_pos ht]
    rw [ih last (fun u hu => h u (by simp [hu]))]
    simp

/-- C2: `send_image` transmits iff `now - last_sent >= interval` and
updates `last_sent_time` to `now` exactly when it transmits; a due first
attempt followed by attempts all within a window shorter than the
interval yields exactly 1 transmission, and attempts each spaced at
least the interval apart (the first being due) all transmit. -/
theorem C2_rate_gate :
    (∀ (img : Bytes) (now last interval : Int),
        ((send_image img now last interval).frames ≠ [] ↔
          interval ≤ now - last) ∧
        (send_image img now last interval).last_sent_time =
          (if interval ≤ now - last then now else last)) ∧
    (∀ (interval : Int) (img : Bytes) (last0 t0 : Int) (ts : List Int),
        interval ≤ t0 - last0 →
        (∀ t ∈ t0 :: ts, t0 ≤ t ∧ t - t0 < interval) →
        (runAttempts interval img last0 (t0 :: ts)).1 = 1) ∧
    (∀ (interval : Int) (img : Bytes) (last0 : Int) (times : List Int),
        times.Chain' (fun a b => interval ≤ b - a) →
        (∀ t ∈ times.head?, interval ≤ t - last0) →
        (runAttempts interval img last0 times).1 = times.length) := by
  refine ⟨?_, ?_, ?_⟩
  · intro img now last interval
    by_cases h : now - last < interval
    · simp [send_image, if_pos h]; omega
    · constructor
      · simp [send_image, if_neg h, sendFrames]; omega
      · simp [send_image, if_neg h]; omega
  · intro interval img last0 t0 ts hdue hwin
    have hnot : ¬ t0 - last0 < interval := by omega
    simp only [runAttempts, send_image, if_neg hnot]
    rw [runAttempts_idle interval img ts t0
      (fun u hu => (hwin u (by simp [hu])).2)]
    simp [sendFrames]
  · intro interval img last0 times
    induction times generalizing last0 with
    | nil => intro _ _; rfl
    | cons t ts ih =>
      intro hchain hhead
      have hdue : interval ≤ t - last0 := hhead t (by simp)
      have hnot : ¬ t - last0 < interval := by omega
      simp only [runAttempts, send_image, if_neg hnot]
      rw [List.chain'_cons'] at hchain
      have := ih t hchain.2 (fun u hu => hchain.1 u hu)
      simp only [this]
      simp [sendFrames]
      omega

/-- Closed instance of `C2_rate_gate`: with interval 5, attempts at
instants 10, 12, 13 (window of width 3) transmit once; attempts at
10, 15, 21 all transmit. -/
theorem C2_rate_gate_witness :
    (runAttempts 5 [1] 0 [10, 12, 13]).1 = 1 ∧
    (runAttempts 5 [1] 0 [10, 15, 21]).1 = 3 := by
  constructor
  · exact C2_rate_gate.2.1 5 [1] 0 10 [12, 13] (by decide)
      (by intro t ht; fin_cases ht <;> constructor <;> decide)
  · exact C2_rate_gate.2.2 5 [1] 0 [10, 15, 21]
      (by simp [List.chain'_cons]) (by intro t ht; simp at ht; omega)

/-! ## Relay session state and command handlers
(`telegram_bot_server.py`, `BotState`, `start`, `stop`)

`BotState` holds the running flag, the optional receive task and
detector process handles, and the three sockets.  The `/start` and
`/stop` handlers are modelled as pure transitions that also produce an
ordered trace of externally visible effects. -/

/-- The fields of `BotState` the handlers read and write.  Handles are
`Option Nat`; the three socket fields record whether the handle is still
open. -/
structure BotState where
  running : Bool
  receive_task : Option Nat
  detector_process : Option Nat
  server_socket_open : Bool
  stopping_socket_open : Bool
  interface_socket_open : Bool
deriving Repr, DecidableEq

/-- Externally visible actions a handler can take, in program order. -/
inductive Effect
  | replyText (msg : String)        -- update.message.reply_text
  | interfaceSend (msg : String)    -- interface_socket.sendall
  | spawnDetector                   -- multiprocessing.Process(...).start()
  | startReceiveTask                -- asyncio.create_task(receive_loop ...)
  | cancelReceiveTask               -- receive_task.cancel()
  | closeSockets                    -- cleanup: close the three sockets
  | terminateDetector               -- cleanup: terminate/join/kill child
  | killLinkSend (msg : String)     -- sock_sendall(client_conn, b'stop')
deriving Repr, DecidableEq

/-- The `/start` handler: reject with 'Already running.' when
`bot_state.running`, otherwise signal the interface, set the flag, reply
'Starting...', spawn the detector process and start the receive task. -/
def start (s : BotState) : List Effect × BotState :=
  if s.running then
    ([Effect.replyText "Already running."], s)
  else
    ([Effect.interfaceSend "running", Effect.replyText "Starting...",
      Effect.spawnDetector, Effect.startReceiveTask],
     { s with running := true, detector_process := some 0,
              receive_task := some 0 })

/-- The `/stop` handler: reject with 'Not running.' when not running,
otherwise clear the flag, signal the interface, cancel the receive task
if any, run `cleanup` (close the three sockets, terminate the detector),
send `stop` on the kill link, and reply. -/
def stop (s : BotState) : List Effect × BotState :=
  if !s.running then
    ([Effect.replyText "Not running."], s)
  else
    ([Effect.interfaceSend "stopping"] ++
      (if s.receive_task.isSome then [Effect.cancelReceiveTask] else []) ++
      [Effect.closeSockets, Effect.terminateDetector,
       Effect.killLinkSend "stop", Effect.replyText "Stopping...",
       Effect.replyText "Stopped."],
     { s with running := false, detector_process := none,
              server_socket_open := false, stopping_socket_open := false,
              interface_socket_open := false })

/-- C3: a `/start` received while the session is already running is
answered with the no-op reply 'Already running.' only — no detector is
spawned, no receive task is started, and the state (still running) is
returned unchanged. -/
theorem C3_session_singleton (s : BotState) (h : s.running = true) :
    start s = ([Effect.replyText "Already running."], s) ∧
    Effect.spawnDetector ∉ (start s).1 ∧
    Effect.startReceiveTask ∉ (start s).1 ∧
    (start s).2 = s := by
  simp [start, h]

/-- Closed instance of `C3_session_singleton` on a concrete running
state. -/
theorem C3_session_singleton_witness :
    start ⟨true, some 0, some 0, true, true, true⟩ =
      ([Effect.replyText "Already running."],
       ⟨true, some 0, some 0, true, true, true⟩) :=
  (C3_session_singleton ⟨true, some 0, some 0, true, true, true⟩ rfl).1

/-- C9: a `/stop` received while no session is running is answered with
'Not running.' only, and the sockets, handles and flag are all left
unchanged. -/
theorem C9_stop_not_running (s : BotState) (h : s.running = false) :
    stop s = ([Effect.replyText "Not running."], s) := by
  simp [stop, h]

/-- Closed instance of `C9_stop_not_running` on a concrete idle state. -/
theorem C9_stop_not_running_witness :
    stop ⟨false, none, none, true, true, true⟩ =
      ([Effect.replyText "Not running."],
       ⟨false, none, none, true, true, true⟩) :=
  C9_stop_not_running ⟨false, none, none, true, true, true⟩ rfl

/-! ## `receive_loop`'s race and forwarding
(`telegram_bot_server.py`, `receive_loop`)

Each iteration creates a fresh `receive_image` task and a
`receive_commands` task and waits for the first to complete, cancelling
the pending one.  Only a completed image task whose buffer is truthy is
forwarded (`reply_photo`); a cancelled image task's local buffer is
dropped with the task — its result is never read. -/

/-- The observable outcome of one iteration's race: either the image
task completed first, having consumed `frames` from the wire, or the
command task completed first and the image task was cancelled after
having consumed `partialFrames`. -/
inductive RaceOutcome
  | imageDone (frames : List Bytes)
  | commandDone (partialFrames : List Bytes)
deriving Repr, DecidableEq

/-- The payload one iteration forwards to the chat, if any: the code
calls `reply_photo(image_data)` only when the image task is in `done`
and `image_data` is non-empty. -/
def loopIter : RaceOutcome → Option Bytes
  | RaceOutcome.imageDone frames =>
      let image_data := receive_image frames
      if image_data.isEmpty then none else some image_data
  | RaceOutcome.commandDone _ => none

/-- All payloads forwarded over a run of `receive_loop` iterations. -/
def forwardedPhotos (outs : List RaceOutcome) : List Bytes :=
  outs.filterMap loopIter

/-- C4: an iteration whose payload receive was cancelled (because the
command task completed first) contributes nothing to the forwarded
output and does not affect any later iteration — the cancelled attempt's
half-filled buffer is discarded; and every payload forwarded right after
such a cancellation is the reassembly of the new attempt's own frames
starting from the empty buffer, never a merge with the cancelled
attempt's bytes. -/
theorem C4_cancellation_safety :
    (∀ (partialFrames : List Bytes) (rest : List RaceOutcome),
        forwardedPhotos (RaceOutcome.commandDone partialFrames :: rest) =
          forwardedPhotos rest) ∧
    (∀ (partialFrames : List Bytes) (fs : List Bytes),
        ∀ p ∈ forwardedPhotos
            [RaceOutcome.commandDone partialFrames,
             RaceOutcome.imageDone fs],
          p = receiveImageFrom [] fs) := by
  constructor
  · intro partialFrames rest
    simp [forwardedPhotos, loopIter]
  · intro partialFrames fs p hp
    by_cases h : (receive_image fs).isEmpty
    · simp [forwardedPhotos, loopIter, h] at hp
    · simp [forwardedPhotos, loopIter, h] at hp
      simpa [receive_image, eq_comm] using hp

/-- Closed instance of `C4_cancellation_safety`: a cancelled attempt
that had buffered `[9]` does not leak into the next payload `[1]`. -/
theorem C4_cancellation_safety_witness :
    forwardedPhotos
        [RaceOutcome.commandDone [[9]], RaceOutcome.imageDone [[1], []]] =
      forwardedPhotos [RaceOutcome.imageDone [[1], []]] ∧
    [1] = receiveImageFrom [] [[1], []] :=
  ⟨C4_cancellation_safety.1 [[9]] [RaceOutcome.imageDone [[1], []]],
   C4_cancellation_safety.2 [[9]] [[1], []] [1] (by decide)⟩

/-- C10: the forwarding step runs only on a non-empty reassembled
buffer — an iteration never forwards an empty payload, and when the
reassembly completes empty (sentinel first, or cancelled before any
data) nothing is forwarded. -/
theorem C10_empty_payload_not_forwarded :
    (∀ (out : RaceOutcome) (p : Bytes), loopIter out = some p → p ≠ []) ∧
    (∀ fs : List Bytes, receive_image fs = [] →
        loopIter (RaceOutcome.imageDone fs) = none) ∧
    (∀ partialFrames : List Bytes,
        loopIter (RaceOutcome.commandDone partialFrames) = none) := by
  refine ⟨?_, ?_, fun _ => rfl⟩
  · intro out p hp
    cases out with
    | imageDone fs =>
      simp only [loopIter] at hp
      by_cases h : (receive_image fs).isEmpty
      · simp [h] at hp
      · simp [h] at hp
        simp [List.isEmpty_iff] at h
        rw [← hp]
        exact h
    | commandDone _ => simp [loopIter] at hp
  · intro fs h
    simp [loopIter, h]

/-- Closed instance of `C10_empty_payload_not_forwarded`: the
sentinel-first stream forwards nothing. -/
theorem C10_empty_payload_not_forwarded_witness :
    loopIter (RaceOutcome.imageDone [[]]) = none :=
  C10_empty_payload_not_forwarded.2.1 [[]] (by decide)

/-! ## Kill Link listener (`detector.py`, `stopping`)

The `stopping()` thread loops `while running`, blocks in `recv`, sets
the global `running = False` and breaks only when the received bytes are
exactly `b'stop'`; on any exception it prints the error and breaks,
leaving `running` as it was. -/

/-- The kill-link token `b'stop'` (ASCII). -/
def stopToken : Bytes := [115, 116, 111, 112]

/-- One observable event on the kill-link socket. -/
inductive KillEvent
  | data (msg : Bytes)   -- recv returned these bytes
  | error                -- recv raised an exception
deriving Repr, DecidableEq

/-- The `stopping()` loop over a stream of recv events, returning the
final value of the global `running` flag. -/
def stoppingRun (running : Bool) : List KillEvent → Bool
  | [] => running
  | e :: es =>
      if running then
        match e with
        | KillEvent.data msg =>
            if msg = stopToken then false else stoppingRun running es
        | KillEvent.error => running
      else running

/-- The guard of the Edge Agent's capture loop (`while running` in
`capture_frames`): the loop runs another iteration iff the flag is
set. -/
def captureLoopRuns (running : Bool) : Bool := running

/-- C5 counterexample: a read error on the kill link does NOT set the
termination flag — `stopping()` merely logs and breaks, so the capture
loop's guard still holds and the loop keeps running, contradicting the
claim that an error is treated as equivalent to receiving `stop`. -/
theorem C5_error_not_stop_counterexample :
    stoppingRun true [KillEvent.error] = true ∧
    captureLoopRuns (stoppingRun true [KillEvent.error]) = true := by
  constructor <;> rfl

/-- C5 (amended): on receiving the exact token `stop` the listener sets
the termination flag (so the capture loop's guard fails on its next
check), ignoring any further events; but on a read error the listener
exits its own loop with the flag unchanged — the error is logged, the
process does not crash, yet the capture loop is NOT terminated. -/
theorem C5_kill_listener :
    (∀ es : List KillEvent,
        stoppingRun true (KillEvent.data stopToken :: es) = false ∧
        captureLoopRuns
          (stoppingRun true (KillEvent.data stopToken :: es)) = false) ∧
    (∀ es : List KillEvent,
        stoppingRun true (KillEvent.error :: es) = true ∧
        captureLoopRuns (stoppingRun true (KillEvent.error :: es)) = true) := by
  constructor
  · intro es
    constructor <;> simp [stoppingRun, captureLoopRuns]
  · intro es
    constructor <;> simp [stoppingRun, captureLoopRuns]

/-! ## Supervisor escalation (`main.py` `stop`; `BotState.cleanup`)

`main.stop` calls `bot_process.terminate()`, then polls
`bot_process.is_alive()` up to 10 times, sleeping 0.5 s after each poll
that still sees it alive, and finally `kill()`s it iff it is still
alive.  `BotState.cleanup` terminates the detector, `join(timeout=5)`s,
and `kill()`s it iff still alive.  Time after the terminate signal is
measured in half-second ticks for the bot and in seconds for the
detector; a child is described by which ticks it is alive at. -/

/-- The supervisor's polling loop: with `n` polls left at tick `t`,
return the tick at which the loop exits (either the child was seen dead
or the polls ran out). -/
def pollAlive (alive : Nat → Bool) : Nat → Nat → Nat
  | 0, t => t
  | n + 1, t => if alive t then pollAlive alive n (t + 1) else t

/-- `main.stop`'s escalation on the bot process: whether `kill()` was
invoked, and the half-second tick at which the sequence finished. -/
def stopBotEscalation (alive : Nat → Bool) : Bool × Nat :=
  let t := pollAlive alive 10 0
  (alive t, t)

/-- `BotState.cleanup`'s escalation on the detector process:
`terminate()`, `join(timeout=5)`, `kill()` iff still alive.  `exitsAt`
is the second at which the child exits after terminate (`none` if it
ignores termination); returns whether `kill()` ran and the seconds
waited in `join`. -/
def cleanupDetector (exitsAt : Option Nat) : Bool × Nat :=
  match exitsAt with
  | some t => if t ≤ 5 then (false, t) else (true, 5)
  | none => (true, 5)

/-- The polling loop uses at most its fuel. -/
theorem pollAlive_le (alive : Nat → Bool) :
    ∀ (n t0 : Nat), pollAlive alive n t0 ≤ t0 + n := by
  intro n
  induction n with
  | zero => intro t0; simp [pollAlive]
  | succ n ih =>
    intro t0
    by_cases h : alive t0
    · simp only [pollAlive, if_pos h]
      have := ih (t0 + 1)
      omega
    · simp only [pollAlive, if_neg h]
      omega

/-- The polling loop exits either on a dead child or with fuel spent. -/
theorem pollAlive_exit (alive : Nat → Bool) :
    ∀ (n t0 : Nat), alive (pollAlive alive n t0) = false ∨
      pollAlive alive n t0 = t0 + n := by
  intro n
  induction n with
  | zero => intro t0; right; simp [pollAlive]
  | succ n ih =>
    intro t0
    by_cases h : alive t0
    · rcases ih (t0 + 1) with hd | hf
      · left; simpa [pollAlive, h] using hd
      · right; simp only [pollAlive, if_pos h, hf]; omega
    · left
      simp only [pollAlive, if_neg h]
      exact Bool.not_eq_true _ ▸ eq_false_of_ne_true h

/-- C6: for a child that stays dead once dead, the bot stop sequence
finishes within 10 half-second ticks (5 s) and force-kills iff the child
is still alive at tick 10; the detector cleanup waits at most 5 s and
force-kills iff the child has not exited within 5 s. -/
theorem C6_escalation_bound (alive : Nat → Bool)
    (hmono : ∀ t t', t ≤ t' → alive t' = true → alive t = true) :
    (stopBotEscalation alive).2 ≤ 10 ∧
    ((stopBotEscalation alive).1 = true ↔ alive 10 = true) ∧
    (∀ exitsAt : Option Nat,
        (cleanupDetector exitsAt).2 ≤ 5 ∧
        ((cleanupDetector exitsAt).1 = true ↔ ∀ t ∈ exitsAt, 5 < t)) := by
  refine ⟨?_, ?_, ?_⟩
  · simpa [stopBotEscalation] using pollAlive_le alive 10 0
  · simp only [stopBotEscalation]
    rcases pollAlive_exit alive 10 0 with hd | hf
    · constructor
      · intro h; rw [hd] at h; exact absurd h (by simp)
      · intro h10
        have hle : pollAlive alive 10 0 ≤ 10 := by
          simpa using pollAlive_le alive 10 0
        have := hmono _ _ hle h10
        rw [hd] at this
        exact absurd this (by simp)
    · rw [hf]
  · intro exitsAt
    cases exitsAt with
    | none => simp [cleanupDetector]
    | some t =>
      by_cases h : t ≤ 5
      · constructor
        · simp [cleanupDetector, if_pos h]; omega
        · simp [cleanupDetector, if_pos h]; omega
      · constructor
        · simp [cleanupDetector, if_neg h]
        · simp [cleanupDetector, if_neg h]; omega

/-- Closed instance of `C6_escalation_bound`: a bot child that dies at
tick 3 is not force-killed and the sequence ends by tick 10; a detector
child that never exits is force-killed after the 5 s join. -/
theorem C6_escalation_bound_witness :
    (stopBotEscalation (fun t => decide (t < 3))).2 ≤ 10 ∧
    ((stopBotEscalation (fun t => decide (t < 3))).1 = true ↔
      decide ((10 : Nat) < 3) = true) ∧
    (∀ exitsAt : Option Nat,
        (cleanupDetector exitsAt).2 ≤ 5 ∧
        ((cleanupDetector exitsAt).1 = true ↔ ∀ t ∈ exitsAt, 5 < t)) :=
  C6_escalation_bound (fun t => decide (t < 3))
    (by intro t t' h h'; simp only [decide_eq_true_eq] at h' ⊢; omega)

/-! ## Supervisor start flow (`main.py` `start`)

`main.start` performs, in order: set the global `running = True`; parse
the port fields with `int(...)`; create the server socket (the nonlocal
`socket_server` now holds it); `bind`; `listen`; spawn the bot process;
`accept` (storing `client_socket`); flip the Start/Stop buttons; `recv`
the `ok` handshake; then update the status text and start the
communication thread.  There is no `try`/`except` and no cleanup: an
exception at any step leaves whatever was built so far in place. -/

/-- The operations of `main.start` that can raise, in program order. -/
inductive StartStep
  | parseConfig    -- int(tf3.value) / int(tf5.value) / int(tf7.value)
  | bindSocket     -- socket_server.bind(...)
  | listenSocket   -- socket_server.listen(1)
  | spawnBot       -- multiprocessing.Process(...).start()
  | acceptConn     -- socket_server.accept()
  | recvOk         -- client_socket.recv(1024)
deriving Repr, DecidableEq

/-- The supervisor-side state `main.start` builds up. -/
structure SupervisorState where
  running : Bool              -- the module-level `running` flag
  socketServerHeld : Bool     -- `socket_server` holds an unclosed socket
  socketListening : Bool      -- `listen(1)` has succeeded on it
  botSpawned : Bool           -- `bot_process.start()` has run
  clientSocketHeld : Bool     -- `accept` returned a connection
  commThreadStarted : Bool    -- the communication thread was started
  statusText : String         -- `status.value`
  startDisabled : Bool        -- `b1.disabled`
deriving Repr, DecidableEq

/-- The GUI's idle state: no resources, status 'Program not running'. -/
def idleState : SupervisorState :=
  ⟨true, false, false, false, false, false, "Program not running", false⟩

/-- `main.start` with a fault injected at `failAt` (`none` = no fault):
execution stops at the failing step, keeping everything already done. -/
def startRun (s0 : SupervisorState) (failAt : Option StartStep) :
    SupervisorState :=
  let s := { s0 with running := true }
  if failAt = some StartStep.parseConfig then s else
  let s := { s with socketServerHeld := true }
  if failAt = some StartStep.bindSocket then s else
  if failAt = some StartStep.listenSocket then s else
  let s := { s with socketListening := true }
  if failAt = some StartStep.spawnBot then s else
  let s := { s with botSpawned := true }
  if failAt = some StartStep.acceptConn then s else
  let s := { s with clientSocketHeld := true, startDisabled := true }
  if failAt = some StartStep.recvOk then s else
  { s with commThreadStarted := true,
           statusText := "Program running, waiting for start signal..." }

/-- C7 counterexample: a start attempt that fails when spawning the bot
process leaves the listening socket held (and a failure at `accept`
additionally leaves the spawned child), contradicting the claim that
every failed start leaves no listening socket and no child process. -/
theorem C7_failed_start_counterexample :
    (startRun idleState (some StartStep.spawnBot)).socketListening = true ∧
    (startRun idleState (some StartStep.acceptConn)).socketListening = true ∧
    (startRun idleState (some StartStep.acceptConn)).botSpawned = true := by
  refine ⟨rfl, rfl, rfl⟩

/-- C7 (amended): a start attempt failing at configuration parse holds
no socket and no child, and one failing at `bind` or `listen` holds the
socket object but not a listening one and no child; in all failure cases
the status text still reads 'Program not running' and the communication
thread was never started; but failures at spawn or later leave the
listening socket held, and failures at accept or later also leave the
child spawned — the code performs no cleanup on a failed start. -/
theorem C7_failed_start :
    (∀ st : StartStep,
        (startRun idleState (some st)).statusText = "Program not running" ∧
        (startRun idleState (some st)).commThreadStarted = false) ∧
    (startRun idleState (some StartStep.parseConfig)).socketServerHeld
        = false ∧
    (startRun idleState (some StartStep.parseConfig)).botSpawned = false ∧
    (startRun idleState (some StartStep.bindSocket)).socketListening
        = false ∧
    (startRun idleState (some StartStep.bindSocket)).botSpawned = false ∧
    (startRun idleState (some StartStep.listenSocket)).socketListening
        = false ∧
    (startRun idleState (some StartStep.listenSocket)).botSpawned = false ∧
    (startRun idleState (some StartStep.spawnBot)).socketListening = true ∧
    (startRun idleState (some StartStep.acceptConn)).botSpawned = true := by
  refine ⟨?_, rfl, rfl, rfl, rfl, rfl, rfl, rfl, rfl⟩
  intro st
  cases st <;> exact ⟨rfl, rfl⟩

/-- C8 counterexample: a gated (no-op) call and a due (sending) call to
`send_image` return the same Python value (`None` both ways), even
though one transmits nothing and the other transmits frames — the two
outcomes are not distinguishable from the operation's result. -/
theorem C8_result_indistinguishable_counterexample :
    (send_image [1] 0 0 5).retval = (send_image [1] 10 0 5).retval ∧
    (send_image [1] 0 0 5).frames = [] ∧
    (send_image [1] 10 0 5).frames ≠ [] := by
  refine ⟨rfl, rfl, ?_⟩
  simp [send_image, sendFrames]

/-- C8 (amended): a `send_image` call whose interval has not elapsed is
a no-op — nothing is handed to `sendto` and `last_sent_time` is
unchanged — but the function returns `None` on both paths, so the no-op
and successful-send outcomes are distinguishable only by side effects,
never from the return value. -/
theorem C8_send_if_due (img : Bytes) (now last interval : Int)
    (h : now - last < interval) :
    (send_image img now last interval).frames = [] ∧
    (send_image img now last interval).last_sent_time = last ∧
    ∀ (img' : Bytes) (now' last' interval' : Int),
      (send_image img now last interval).retval =
        (send_image img' now' last' interval').retval := by
  refine ⟨?_, ?_, fun _ _ _ _ => rfl⟩ <;> simp [send_image, if_pos h]

/-- Closed instance of `C8_send_if_due` at a concrete gated call. -/
theorem C8_send_if_due_witness :
    (send_image [1] 3 0 5).frames = [] ∧
    (send_image [1] 3 0 5).last_sent_time = 0 ∧
    ∀ (img' : Bytes) (now' last' interval' : Int),
      (send_image [1] 3 0 5).retval =
        (send_image img' now' last' interval').retval :=
  C8_send_if_due [1] 3 0 5 (by decide)

end FaceDetect
